import Mathlib

/-!
Verification of the container lifecycle orchestration core of
`testcontainers-rs` (async variant), shallowly embedded from
`src/core/container_async.rs`.

The runtime client (the `DockerAsync` trait object held by the handle) is
modelled as a pure oracle `DockerEnv` describing what the runtime would
answer for a given container id, and every operation additionally returns
the ordered list of calls it issues against the client (plus timer sleeps),
so that frame and ordering claims become statements about these traces.
Panics (from `unwrap` and `panic!`) are modelled with `Except`.
-/

namespace Testcontainers

/-- Cleanup policy, from `env::Command` (`Remove` or `Keep`), matched on in
`ContainerAsync::drop_async`. -/
inductive Command : Type
  | remove : Command
  | keep : Command
deriving DecidableEq, Repr

/-- Readiness condition, from the `WaitFor` enum as matched on in
`ContainerAsync::block_until_ready`: a stdout log message, a stderr log
message, a fixed duration, or nothing. Durations are in abstract time
units (`Nat`). -/
inductive WaitFor : Type
  | stdOutMessage (message : String) : WaitFor
  | stdErrMessage (message : String) : WaitFor
  | duration (length : Nat) : WaitFor
  | nothing : WaitFor
deriving DecidableEq, Repr

/-- Protocol part of a port mapping key, from the data model of the port
map (keys are pairs of internal port and protocol). -/
inductive Protocol : Type
  | tcp : Protocol
  | udp : Protocol
deriving DecidableEq, Repr

/-- Port mappings as answered by the runtime client for one container:
an association list from (internal port, protocol) keys to host ports. -/
def Ports : Type := List ((Nat × Protocol) × Nat)

/-- Pure oracle for the runtime client capability (`dyn DockerAsync`): what
the stdout stream, the stderr stream and the port mappings of a given
container id would be. Log streams are the finite list of lines the stream
yields before it closes. -/
structure DockerEnv : Type where
  stdoutLogs : String → List String
  stderrLogs : String → List String
  ports : String → Ports

/-- One observable interaction of the handle with the outside world: a call
on the runtime client (open stdout or stderr stream, query ports, rm, stop,
start, each carrying the container id it is issued for), or a timer sleep. -/
inductive Event : Type
  | stdoutLogs (id : String) : Event
  | stderrLogs (id : String) : Event
  | portsQuery (id : String) : Event
  | rm (id : String) : Event
  | stop (id : String) : Event
  | start (id : String) : Event
  | sleep (length : Nat) : Event
deriving DecidableEq, Repr

/-- Modelled from the spec: the failure type of the log stream matcher in
`core/logs.rs`, which is not part of the excerpt. Section 4.2 requires the
matcher to fail when the stream terminates before the substring appears,
and section 7 keeps that failure distinct from a runtime I/O failure. -/
inductive WaitError : Type
  | endOfStream : WaitError
  | ioFailure (msg : String) : WaitError
deriving DecidableEq, Repr

/-- Prefix test on character lists: the first list leads the second. -/
def isPrefixOfList : List Char → List Char → Bool
  | [], _ => true
  | _ :: _, [] => false
  | a :: as, b :: bs => a == b && isPrefixOfList as bs

/-- Substring test on character lists: `needle` occurs in `haystack` (at
the current position or further right). -/
def listContainsSubstr : List Char → List Char → Bool
  | [], needle => needle.isEmpty
  | h :: t, needle => isPrefixOfList needle (h :: t) || listContainsSubstr t needle

/-- Substring test on strings: `needle` occurs somewhere in `haystack`. -/
def containsSubstr (haystack needle : String) : Bool :=
  listContainsSubstr haystack.data needle.data

/-- Modelled from the spec: `wait_for_message` of the log stream matcher in
`core/logs.rs`, which is not part of the excerpt. Section 4.2: resolve
successfully once a line containing the substring has been observed, fail
if the stream terminates before the substring appears. The stream is the
list of lines it yields before closing. -/
def wait_for_message (stream : List String) (message : String) :
    Except WaitError Unit :=
  match stream with
  | [] => Except.error WaitError.endOfStream
  | line :: rest =>
      if containsSubstr line message then Except.ok ()
      else wait_for_message rest message

/-- Image descriptor as the handle uses it: `block_until_ready` only reads
`image.ready_conditions()`, the ordered list of readiness conditions. -/
structure Image : Type where
  ready_conditions : List WaitFor

/-- The handle over a running container, from `struct ContainerAsync`:
runtime-assigned id, the boxed runtime client, the image descriptor and the
cleanup command. The `PhantomData` lifetime marker has no runtime content
and is omitted. -/
structure ContainerAsync : Type where
  id : String
  docker_client : DockerEnv
  image : Image
  command : Command

/-- Evaluation of one readiness condition inside the loop of
`block_until_ready`: the calls it issues and its outcome. A stdout or
stderr message condition opens the named stream and runs the matcher; a
duration condition sleeps; `Nothing` does nothing. -/
def evalCondition (env : DockerEnv) (id : String) :
    WaitFor → List Event × Except WaitError Unit
  | WaitFor.stdOutMessage message =>
      ([Event.stdoutLogs id], wait_for_message (env.stdoutLogs id) message)
  | WaitFor.stdErrMessage message =>
      ([Event.stderrLogs id], wait_for_message (env.stderrLogs id) message)
  | WaitFor.duration length => ([Event.sleep length], Except.ok ())
  | WaitFor.nothing => ([], Except.ok ())

/-- The loop of `ContainerAsync::block_until_ready` over the condition
list: conditions are taken in order; each `unwrap` turns a matcher failure
into a panic that aborts the loop, so on failure no later condition is
started. -/
def readyLoop (env : DockerEnv) (id : String) :
    List WaitFor → List Event × Except WaitError Unit
  | [] => ([], Except.ok ())
  | c :: cs =>
      match evalCondition env id c with
      | (t, Except.error e) => (t, Except.error e)
      | (t, Except.ok ()) =>
          let rest := readyLoop env id cs
          (t ++ rest.1, rest.2)

/-- `ContainerAsync::block_until_ready`: runs the conditions of the image
of the handle, in declaration order, against the client of the handle. -/
def ContainerAsync.block_until_ready (c : ContainerAsync) :
    List Event × Except WaitError Unit :=
  readyLoop c.docker_client c.id c.image.ready_conditions

/-- `ContainerAsync::new`: builds the handle from the supplied id, client,
image and command, then drives `block_until_ready` to completion; only when
that succeeds is the handle released to the caller (on a panic the caller
never receives a handle). -/
def ContainerAsync.new (id : String) (docker_client : DockerEnv)
    (image : Image) (command : Command) :
    List Event × Except WaitError ContainerAsync :=
  let container : ContainerAsync :=
    { id := id, docker_client := docker_client, image := image,
      command := command }
  match container.block_until_ready with
  | (t, Except.ok ()) => (t, Except.ok container)
  | (t, Except.error e) => (t, Except.error e)

/-- Modelled from the spec: `map_to_host_port` of `core/ports.rs`, which is
not part of the excerpt. Section 4.3: `resolve(internal_port, protocol) ->
host_port | absent`; the testable property in section 8 resolves by the
internal port (mapping `(27017, tcp) : 49153` answers `49153` for
`27017`), so the lookup matches on the internal-port component. -/
def map_to_host_port (mapping : Ports) (internal_port : Nat) : Option Nat :=
  (mapping.find? fun entry => entry.1.1 == internal_port).map
    fun entry => entry.2

/-- `ContainerAsync::get_host_port`: queries the port mappings of the
client afresh, resolves the internal port, and panics (modelled as
`Except.error` carrying the panic message) when the port is not mapped.
The handle is returned unchanged (the method takes a shared reference). -/
def ContainerAsync.get_host_port (c : ContainerAsync) (internal_port : Nat) :
    List Event × Except String Nat × ContainerAsync :=
  ([Event.portsQuery c.id],
   match map_to_host_port (c.docker_client.ports c.id) internal_port with
   | some host_port => Except.ok host_port
   | none =>
       Except.error ("container " ++ c.id ++ " does not expose port "
         ++ toString internal_port),
   c)

/-- `ContainerAsync::start`: delegates directly to the client; the handle
is returned unchanged (shared reference). -/
def ContainerAsync.start (c : ContainerAsync) :
    List Event × ContainerAsync :=
  ([Event.start c.id], c)

/-- `ContainerAsync::stop`: delegates directly to the client; the handle is
returned unchanged (shared reference). -/
def ContainerAsync.stop (c : ContainerAsync) :
    List Event × ContainerAsync :=
  ([Event.stop c.id], c)

/-- `ContainerAsync::drop_async`: on `Remove`, issues `rm` on the client
with the id of the handle; on `Keep`, does nothing. -/
def ContainerAsync.drop_async (c : ContainerAsync) : List Event :=
  match c.command with
  | Command.remove => [Event.rm c.id]
  | Command.keep => []

/-- The `Drop` impl of `ContainerAsync`: `block_on(self.drop_async())`,
i.e. the calls of `drop_async` are forced to completion synchronously. -/
def ContainerAsync.drop (c : ContainerAsync) : List Event :=
  c.drop_async

/-- `ContainerAsync::rm`: issues `rm` on the client, taking the handle by
value. Because the method consumes `self` without forgetting it, the
`Drop` impl still runs when the body ends, so its calls follow. -/
def ContainerAsync.rm (c : ContainerAsync) : List Event :=
  [Event.rm c.id] ++ c.drop

/-- Spec-side notion (section 3 and section 4.1): a readiness condition is
satisfied when its awaited message occurs in some line of the named stream;
a delay or the empty condition is always eventually satisfied. Used to
compare the construction routine against the readiness invariant. -/
def conditionSatisfied (env : DockerEnv) (id : String) : WaitFor → Bool
  | WaitFor.stdOutMessage message =>
      (env.stdoutLogs id).any fun line => containsSubstr line message
  | WaitFor.stdErrMessage message =>
      (env.stderrLogs id).any fun line => containsSubstr line message
  | WaitFor.duration _ => true
  | WaitFor.nothing => true

/-- Whether one condition resolves (its evaluation does not panic). -/
def resolved (env : DockerEnv) (id : String) (w : WaitFor) : Bool :=
  match (evalCondition env id w).2 with
  | Except.ok _ => true
  | Except.error _ => false

/-- Spec-side decomposition of the readiness trace (section 4.1): the
per-condition event blocks of the longest prefix of conditions that
resolve, concatenated in declaration order, followed by the events of the
first unresolved condition if any. Conditions after the first unresolved
one contribute nothing. -/
def declOrderTrace (env : DockerEnv) (id : String) (conds : List WaitFor) :
    List Event :=
  (((conds.takeWhile (resolved env id)).map
      fun w => (evalCondition env id w).1).flatten)
    ++ match conds.dropWhile (resolved env id) with
       | [] => []
       | w :: _ => (evalCondition env id w).1

/-- Calls issued by a sequence of `n` successive `get_host_port` calls on a
handle, each next call made on the handle returned by the previous one. -/
def repeatedPortCalls (c : ContainerAsync) (internal_port : Nat) :
    Nat → List Event
  | 0 => []
  | n + 1 =>
      (c.get_host_port internal_port).1
        ++ repeatedPortCalls (c.get_host_port internal_port).2.2
          internal_port n

/-- Concrete runtime oracle used for witnesses: a stdout stream that emits
two lines and closes, a one-line stderr stream, and one mapped port. -/
def sampleEnv : DockerEnv where
  stdoutLogs := fun _ => ["initializing", "ready"]
  stderrLogs := fun _ => ["listening"]
  ports := fun _ => [((27017, Protocol.tcp), 49153)]

/-- Concrete runtime oracle whose stdout closes after one line and whose
stderr closes immediately, so message conditions can never be satisfied. -/
def stalledEnv : DockerEnv where
  stdoutLogs := fun _ => ["initializing"]
  stderrLogs := fun _ => []
  ports := fun _ => []

/-- Concrete handle with the `Remove` cleanup policy. -/
def removeContainer : ContainerAsync where
  id := "abc"
  docker_client := sampleEnv
  image := { ready_conditions := [] }
  command := Command.remove

/-- Concrete handle with the `Keep` cleanup policy. -/
def keepContainer : ContainerAsync where
  id := "xyz"
  docker_client := sampleEnv
  image := { ready_conditions := [] }
  command := Command.keep

/-- Concrete handle expected from a construction with no conditions. -/
def w10Container : ContainerAsync where
  id := "w10"
  docker_client := sampleEnv
  image := { ready_conditions := [] }
  command := Command.keep

/-- Concrete handle used for port resolution witnesses. -/
def portContainer : ContainerAsync where
  id := "db"
  docker_client := sampleEnv
  image := { ready_conditions := [] }
  command := Command.remove

/-! Helper lemmas, shared across the claim theorems. -/

theorem wait_ok_iff_any (m : String) :
    ∀ s : List String, wait_for_message s m = Except.ok () ↔
      s.any (fun line => containsSubstr line m) = true := by
  intro s
  induction s with
  | nil => simp [wait_for_message]
  | cons l rest ih =>
    by_cases hc : containsSubstr l m
    · simp [wait_for_message, hc]
    · simp [wait_for_message, hc, ih]

theorem wait_error_endOfStream (m : String) :
    ∀ (s : List String) (e : WaitError),
      wait_for_message s m = Except.error e → e = WaitError.endOfStream := by
  intro s
  induction s with
  | nil =>
    intro e h
    simp [wait_for_message] at h
    exact h.symm
  | cons l rest ih =>
    intro e h
    by_cases hc : containsSubstr l m
    · simp [wait_for_message, hc] at h
    · simp only [wait_for_message, hc, if_false] at h
      exact ih e h

theorem evalCondition_ok_satisfied (env : DockerEnv) (id : String)
    (w : WaitFor) (h : (evalCondition env id w).2 = Except.ok ()) :
    conditionSatisfied env id w = true := by
  cases w with
  | stdOutMessage m =>
    simp only [evalCondition] at h
    simpa [conditionSatisfied] using (wait_ok_iff_any m (env.stdoutLogs id)).mp h
  | stdErrMessage m =>
    simp only [evalCondition] at h
    simpa [conditionSatisfied] using (wait_ok_iff_any m (env.stderrLogs id)).mp h
  | duration n => rfl
  | nothing => rfl

theorem evalCondition_error_endOfStream (env : DockerEnv) (id : String)
    (w : WaitFor) (e : WaitError)
    (h : (evalCondition env id w).2 = Except.error e) :
    e = WaitError.endOfStream := by
  cases w with
  | stdOutMessage m =>
    simp only [evalCondition] at h
    exact wait_error_endOfStream m (env.stdoutLogs id) e h
  | stdErrMessage m =>
    simp only [evalCondition] at h
    exact wait_error_endOfStream m (env.stderrLogs id) e h
  | duration n => simp [evalCondition] at h
  | nothing => simp [evalCondition] at h

theorem readyLoop_ok_satisfied (env : DockerEnv) (id : String) :
    ∀ conds : List WaitFor, (readyLoop env id conds).2 = Except.ok () →
      ∀ w ∈ conds, conditionSatisfied env id w = true := by
  intro conds
  induction conds with
  | nil =>
    intro _ w hw
    simp at hw
  | cons c cs ih =>
    intro h w hw
    rcases he : evalCondition env id c with ⟨t, r⟩
    cases r with
    | error e => simp [readyLoop, he] at h
    | ok u =>
      cases u
      have hcs : (readyLoop env id cs).2 = Except.ok () := by
        simpa [readyLoop, he] using h
      rcases List.mem_cons.mp hw with hw1 | hw2
      · subst hw1
        exact evalCondition_ok_satisfied env id w (by rw [he])
      · exact ih hcs w hw2

theorem readyLoop_error_endOfStream (env : DockerEnv) (id : String) :
    ∀ (conds : List WaitFor) (e : WaitError),
      (readyLoop env id conds).2 = Except.error e →
        e = WaitError.endOfStream := by
  intro conds
  induction conds with
  | nil =>
    intro e h
    simp [readyLoop] at h
  | cons c cs ih =>
    intro e h
    rcases he : evalCondition env id c with ⟨t, r⟩
    cases r with
    | error e2 =>
      have h2 : e2 = e := by simpa [readyLoop, he] using h
      rw [← h2]
      exact evalCondition_error_endOfStream env id c e2 (by rw [he])
    | ok u =>
      cases u
      have hcs : (readyLoop env id cs).2 = Except.error e := by
        simpa [readyLoop, he] using h
      exact ih e hcs

theorem readyLoop_all_nothing (env : DockerEnv) (id : String) :
    ∀ conds : List WaitFor, (∀ w ∈ conds, w = WaitFor.nothing) →
      readyLoop env id conds = ([], Except.ok ()) := by
  intro conds h
  induction conds with
  | nil => rfl
  | cons c cs ih =>
    have hc : c = WaitFor.nothing := h c (by simp)
    subst hc
    have hrest := ih fun w hw => h w (List.mem_cons_of_mem _ hw)
    simp [readyLoop, evalCondition, hrest]

/-- C2 as stated is false on the code: `drop_async` with the `Remove`
policy issues only `rm` against the runtime client, never `stop`. Shown on
a concrete handle with the `Remove` policy whose disposal trace contains no
stop call. -/
theorem c2_counterexample :
    removeContainer.command = Command.remove ∧
    removeContainer.drop = [Event.rm "abc"] ∧
    Event.stop "abc" ∉ removeContainer.drop :=
  ⟨rfl, rfl, by decide⟩

/-- C2 amended: for every handle whose cleanup policy is `Remove`,
disposal issues exactly one `remove` call against the runtime client using
the handle identifier, and no `stop` call; for `Keep`, no runtime call is
made (the `Keep` side is the subject of the C8 theorem). -/
theorem c2_remove_issues_rm_only (c : ContainerAsync)
    (h : c.command = Command.remove) :
    c.drop = [Event.rm c.id] ∧ Event.stop c.id ∉ c.drop := by
  have hd : c.drop = [Event.rm c.id] := by
    simp [ContainerAsync.drop, ContainerAsync.drop_async, h]
  refine ⟨hd, fun hm => ?_⟩
  rw [hd] at hm
  exact Event.noConfusion (List.mem_singleton.mp hm)

/-- Witness for the amended C2 at a concrete `Remove` handle. -/
theorem c2_witness :
    removeContainer.drop = [Event.rm removeContainer.id] ∧
    Event.stop removeContainer.id ∉ removeContainer.drop :=
  c2_remove_issues_rm_only removeContainer rfl

/-- C3 as stated is false on the code: `rm` takes the handle by value and
the `Drop` impl still runs at the end of its body, so an explicit removal
followed by disposal issues two `rm` calls (and no `stop` call at all),
not exactly one stop+remove pair with the second invocation a no-op. -/
theorem c3_counterexample :
    removeContainer.rm = [Event.rm "abc", Event.rm "abc"] ∧
    removeContainer.rm.count (Event.rm "abc") = 2 ∧
    Event.stop "abc" ∉ removeContainer.rm :=
  ⟨rfl, by decide, by decide⟩

/-- C3 amended: on a handle with the `Remove` policy, explicit removal
followed by disposal issues exactly two `remove` calls with the handle
identifier — teardown is not deduplicated, the second invocation repeats
the `remove` call (the runtime treats removing an absent id as a no-op,
but two calls are issued). -/
theorem c3_double_remove (c : ContainerAsync)
    (h : c.command = Command.remove) :
    c.rm = [Event.rm c.id, Event.rm c.id] := by
  simp [ContainerAsync.rm, ContainerAsync.drop, ContainerAsync.drop_async, h]

/-- Witness for the amended C3 at a concrete `Remove` handle. -/
theorem c3_witness :
    removeContainer.rm =
      [Event.rm removeContainer.id, Event.rm removeContainer.id] :=
  c3_double_remove removeContainer rfl

/-- C8: for every handle whose cleanup policy is `Keep`, disposal issues
no call at all against the runtime client — in particular zero `stop` and
zero `remove` calls. -/
theorem c8_keep_no_calls (c : ContainerAsync)
    (h : c.command = Command.keep) : c.drop = [] := by
  simp [ContainerAsync.drop, ContainerAsync.drop_async, h]

/-- Witness for C8 at a concrete `Keep` handle. -/
theorem c8_witness : keepContainer.drop = [] :=
  c8_keep_no_calls keepContainer rfl

/-- C9: when every readiness condition of the descriptor is the `Nothing`
condition (in particular when the list is empty), construction returns the
handle with an empty event trace: no stream is opened, no runtime call is
made and no sleep happens. -/
theorem c9_trivial_conditions_return_at_once (id : String)
    (env : DockerEnv) (img : Image) (cmd : Command)
    (h : ∀ w ∈ img.ready_conditions, w = WaitFor.nothing) :
    ContainerAsync.new id env img cmd =
      ([], Except.ok
        { id := id, docker_client := env, image := img, command := cmd }) := by
  unfold ContainerAsync.new ContainerAsync.block_until_ready
  simp [readyLoop_all_nothing env id img.ready_conditions h]

/-- Witness for C9 at a descriptor with a `Nothing`-only condition list. -/
theorem c9_witness :
    ContainerAsync.new "w9" sampleEnv
        (Image.mk [WaitFor.nothing, WaitFor.nothing]) Command.keep =
      ([], Except.ok
        { id := "w9", docker_client := sampleEnv,
          image := Image.mk [WaitFor.nothing, WaitFor.nothing],
          command := Command.keep }) :=
  c9_trivial_conditions_return_at_once "w9" sampleEnv
    (Image.mk [WaitFor.nothing, WaitFor.nothing]) Command.keep (by decide)

/-- C10: a handle released by construction carries exactly the identifier,
client, image and command supplied at construction, and the read-only and
delegating operations (`id`, `get_host_port`, `start`, `stop`) leave every
field of the handle unchanged. -/
theorem c10_readonly_ops_frame (id : String) (env : DockerEnv)
    (img : Image) (cmd : Command) (t : List Event) (c : ContainerAsync)
    (p : Nat) (h : ContainerAsync.new id env img cmd = (t, Except.ok c)) :
    c.id = id ∧ c.docker_client = env ∧ c.image = img ∧ c.command = cmd ∧
    c.start.2 = c ∧ c.stop.2 = c ∧ (c.get_host_port p).2.2 = c := by
  simp only [ContainerAsync.new] at h
  rcases hr : ContainerAsync.block_until_ready
      { id := id, docker_client := env, image := img, command := cmd }
    with ⟨t1, r⟩
  rw [hr] at h
  cases r with
  | ok u =>
    cases u
    simp only [Prod.mk.injEq, Except.ok.injEq] at h
    rw [← h.2]
    exact ⟨rfl, rfl, rfl, rfl, rfl, rfl, rfl⟩
  | error e => simp at h

/-- Witness for C10 at a concrete construction with no conditions. -/
theorem c10_witness :
    w10Container.id = "w10" ∧ w10Container.docker_client = sampleEnv ∧
    w10Container.image = Image.mk [] ∧ w10Container.command = Command.keep ∧
    w10Container.start.2 = w10Container ∧
    w10Container.stop.2 = w10Container ∧
    (w10Container.get_host_port 27017).2.2 = w10Container :=
  c10_readonly_ops_frame "w10" sampleEnv (Image.mk []) Command.keep []
    w10Container 27017 rfl

/-- C1: the construction routine releases a handle only when every
readiness condition of the descriptor is satisfied (each awaited message
occurs in its stream); a construction that returns `Except.ok` implies the
whole condition list evaluates satisfied, so no partially-ready handle is
observable. -/
theorem c1_no_handle_before_ready (id : String) (env : DockerEnv)
    (img : Image) (cmd : Command) (t : List Event) (c : ContainerAsync)
    (h : ContainerAsync.new id env img cmd = (t, Except.ok c)) :
    img.ready_conditions.all (conditionSatisfied env id) = true := by
  simp only [ContainerAsync.new] at h
  rcases hr : ContainerAsync.block_until_ready
      { id := id, docker_client := env, image := img, command := cmd }
    with ⟨t1, r⟩
  rw [hr] at h
  cases r with
  | error e => simp at h
  | ok u =>
    cases u
    refine List.all_eq_true.mpr fun w hw =>
      readyLoop_ok_satisfied env id img.ready_conditions ?_ w hw
    have hr2 : (ContainerAsync.block_until_ready
        { id := id, docker_client := env, image := img,
          command := cmd }).2 = Except.ok () := by
      rw [hr]
    exact hr2

/-- Witness for C1 at a construction whose stream contains the awaited
message. -/
theorem c1_witness :
    (Image.mk [WaitFor.stdOutMessage "ready", WaitFor.duration 2,
        WaitFor.nothing]).ready_conditions.all
      (conditionSatisfied sampleEnv "w1") = true :=
  c1_no_handle_before_ready "w1" sampleEnv
    (Image.mk [WaitFor.stdOutMessage "ready", WaitFor.duration 2,
      WaitFor.nothing])
    Command.remove [Event.stdoutLogs "w1", Event.sleep 2]
    { id := "w1", docker_client := sampleEnv,
      image := Image.mk [WaitFor.stdOutMessage "ready", WaitFor.duration 2,
        WaitFor.nothing],
      command := Command.remove }
    rfl

/-- C4: the readiness loop is strictly sequential in declaration order:
its event trace is exactly the per-condition event blocks of the longest
resolving prefix, concatenated in declaration order, followed by the
events of the first unresolved condition — a condition contributes no
event (no stream opened, no sleep) unless every earlier condition
resolved, and the events of distinct conditions never interleave. The
loop succeeds exactly when every condition resolves. -/
theorem c4_sequential_decl_order (env : DockerEnv) (id : String)
    (conds : List WaitFor) :
    (readyLoop env id conds).1 = declOrderTrace env id conds ∧
    ((readyLoop env id conds).2 = Except.ok () ↔
      conds.all (resolved env id) = true) := by
  induction conds with
  | nil => simp [readyLoop, declOrderTrace]
  | cons c cs ih =>
    rcases he : evalCondition env id c with ⟨t, r⟩
    cases r with
    | error e =>
      have hres : resolved env id c = false := by simp [resolved, he]
      constructor
      · simp [readyLoop, he, declOrderTrace, List.takeWhile_cons,
          List.dropWhile_cons, hres]
      · simp [readyLoop, he, hres]
    | ok u =>
      cases u
      have hres : resolved env id c = true := by simp [resolved, he]
      constructor
      · simp [readyLoop, he, declOrderTrace, List.takeWhile_cons,
          List.dropWhile_cons, hres, List.append_assoc] at ih ⊢
        rw [ih.1]
      · simp [readyLoop, he, hres, ih.2]

/-- Witness for C4 at a concrete list whose second condition stalls: the
first condition (a sleep) contributes its event, the stalled message
condition contributes its stream-open event, and the third condition
contributes nothing. -/
theorem c4_witness :
    (readyLoop stalledEnv "w4" [WaitFor.duration 5,
        WaitFor.stdOutMessage "ready", WaitFor.duration 9]).1 =
      declOrderTrace stalledEnv "w4" [WaitFor.duration 5,
        WaitFor.stdOutMessage "ready", WaitFor.duration 9] ∧
    ((readyLoop stalledEnv "w4" [WaitFor.duration 5,
        WaitFor.stdOutMessage "ready", WaitFor.duration 9]).2 =
          Except.ok () ↔
      ([WaitFor.duration 5, WaitFor.stdOutMessage "ready",
        WaitFor.duration 9].all (resolved stalledEnv "w4")) = true) :=
  c4_sequential_decl_order stalledEnv "w4"
    [WaitFor.duration 5, WaitFor.stdOutMessage "ready", WaitFor.duration 9]

/-- C5: `get_host_port` answers `Except.ok h` exactly when the runtime
port mapping of the handle resolves the internal port to `h`, and on an
unmapped port it answers the distinct panic message naming the container
and the port — never a default value. -/
theorem c5_port_resolution (c : ContainerAsync) (p h : Nat) :
    ((c.get_host_port p).2.1 = Except.ok h ↔
      map_to_host_port (c.docker_client.ports c.id) p = some h) ∧
    (map_to_host_port (c.docker_client.ports c.id) p = none →
      (c.get_host_port p).2.1 =
        Except.error ("container " ++ c.id ++ " does not expose port "
          ++ toString p)) := by
  unfold ContainerAsync.get_host_port
  constructor
  · cases hm : map_to_host_port (c.docker_client.ports c.id) p with
    | none => simp [hm]
    | some q => simp [hm]
  · intro hm
    simp [hm]

/-- Witness for C5: the mapping `(27017, tcp) : 49153` yields `49153` for
port `27017`, and the unmapped port `9999` yields the panic message, not
a default. -/
theorem c5_witness :
    (portContainer.get_host_port 27017).2.1 = Except.ok 49153 ∧
    (portContainer.get_host_port 9999).2.1 =
      Except.error "container db does not expose port 9999" :=
  ⟨(c5_port_resolution portContainer 27017 49153).1.mpr rfl,
   (c5_port_resolution portContainer 9999 0).2 rfl⟩

/-- C6 as stated is false on the code: the waiting loop aborts through a
bare `unwrap` of the matcher failure, and that failure value is the same
`endOfStream` for two constructions with different sandbox ids and
different unmet conditions — so the surfaced failure carries neither the
sandbox id nor the unmet condition. -/
theorem c6_counterexample :
    (ContainerAsync.new "id-a" stalledEnv
        (Image.mk [WaitFor.stdOutMessage "ready"]) Command.remove).2 =
      Except.error WaitError.endOfStream ∧
    (ContainerAsync.new "id-b" stalledEnv
        (Image.mk [WaitFor.stdErrMessage "listening"]) Command.remove).2 =
      Except.error WaitError.endOfStream ∧
    "id-a" ≠ "id-b" ∧
    WaitFor.stdOutMessage "ready" ≠ WaitFor.stdErrMessage "listening" :=
  ⟨rfl, rfl, by decide, by decide⟩

/-- C6 amended: when a readiness condition can never be satisfied, the
construction routine aborts (returns no handle) with the end-of-stream
wait failure, which is distinct from any generic I/O failure — but the
failure carries neither the sandbox id nor the unmet condition. -/
theorem c6_abort_distinct_failure (id : String) (env : DockerEnv)
    (img : Image) (cmd : Command) (t : List Event) (e : WaitError)
    (s : String)
    (h : ContainerAsync.new id env img cmd = (t, Except.error e)) :
    e = WaitError.endOfStream ∧ e ≠ WaitError.ioFailure s := by
  simp only [ContainerAsync.new] at h
  rcases hr : ContainerAsync.block_until_ready
      { id := id, docker_client := env, image := img, command := cmd }
    with ⟨t1, r⟩
  rw [hr] at h
  cases r with
  | ok u => cases u; simp at h
  | error e2 =>
    simp only [Prod.mk.injEq, Except.error.injEq] at h
    have he2 : e2 = WaitError.endOfStream := by
      refine readyLoop_error_endOfStream env id img.ready_conditions e2 ?_
      have hr2 : (ContainerAsync.block_until_ready
          { id := id, docker_client := env, image := img,
            command := cmd }).2 = Except.error e2 := by
        rw [hr]
      exact hr2
    rw [← h.2, he2]
    exact ⟨rfl, fun hcon => WaitError.noConfusion hcon⟩

/-- Witness for the amended C6 at a stream that closes before the awaited
message appears. -/
theorem c6_witness :
    (WaitError.endOfStream = WaitError.endOfStream ∧
      WaitError.endOfStream ≠ WaitError.ioFailure "connection reset") :=
  c6_abort_distinct_failure "w6" stalledEnv
    (Image.mk [WaitFor.stdOutMessage "ready"]) Command.keep
    [Event.stdoutLogs "w6"] WaitError.endOfStream "connection reset" rfl

/-- C7: every `get_host_port` call issues exactly one fresh ports query
against the runtime client for the handle id and leaves the handle
unchanged (nothing is snapshotted on it), so a sequence of `n` calls
issues exactly `n` ports queries — one per call, none answered from a
cache. -/
theorem c7_fresh_query_per_call (c : ContainerAsync) (p n : Nat) :
    (c.get_host_port p).1 = [Event.portsQuery c.id] ∧
    (c.get_host_port p).2.2 = c ∧
    repeatedPortCalls c p n = List.replicate n (Event.portsQuery c.id) := by
  refine ⟨rfl, rfl, ?_⟩
  induction n with
  | zero => rfl
  | succ k ih =>
    simp [repeatedPortCalls, ContainerAsync.get_host_port, ih,
      List.replicate_succ]

/-- Witness for C7: three successive calls issue exactly three ports
queries. -/
theorem c7_witness :
    (portContainer.get_host_port 27017).1 =
      [Event.portsQuery portContainer.id] ∧
    (portContainer.get_host_port 27017).2.2 = portContainer ∧
    repeatedPortCalls portContainer 27017 3 =
      List.replicate 3 (Event.portsQuery portContainer.id) :=
  c7_fresh_query_per_call portContainer 27017 3

end Testcontainers
